import Mathlib

/-!
# Verification of the date-search utility

A shallow embedding of `real_code.py`: a command line utility that formats
today's date as a natural-language query string ("Friday January 17th 2014"),
fetches the first page of search results for it, and extracts the true
destination URLs from the tracking-redirect links of the results page.

The embedding keeps the source's structure:

* `ORDINAL_SUFFIXES`, `format_date_for_search`, `format_today_for_search`
  model the date-formatting half.  Python's `date.strftime` (directives
  `%A`, `%B`, `%Y` in the C locale) is modelled by `strftime_chars` on top
  of the proleptic-Gregorian ordinal-day computation used by `datetime.date`
  (`date_toordinal`), and `str.format` substitution of the `{ordinal_day}`
  field by `format_substitute`.
* `urlparse_query`, `parse_qsl`, `parse_qs`, `unquote_chars` model the
  pieces of Python 2's `urlparse` module that the source calls
  (`urlparse(href).query` and `parse_qs(qs).get('q')`, with default
  arguments: blank values dropped, `&` and `;` separators, `+` to space,
  percent-decoding).
* `result_link_url` is the body of the extraction loop for one anchor,
  `extract_urls` is the loop itself, and `google_for_today` is the workflow
  including the non-200 fail-fast branch.  The HTTP and markup-parsing
  collaborators are passed in as a `Response` value whose `search_results`
  field is the href sequence of the anchors matched by the structural
  selector `li.g h3.r a`.

All string manipulation is done by structural recursion on `List Char`
so that every definition evaluates by `decide`/`rfl`.
-/

/-- A calendar date `(year, month, day)`, as supplied by `datetime.date`. -/
structure CalendarDate where
  year : Nat
  month : Nat
  day : Nat
deriving DecidableEq, Repr

/-- Leap-year test of the proleptic Gregorian calendar used by `datetime`. -/
def is_leap (y : Nat) : Bool :=
  y % 4 == 0 && (y % 100 != 0 || y % 400 == 0)

/-- Length of month `m` of year `y` (`datetime._days_in_month`). -/
def days_in_month (y m : Nat) : Nat :=
  if m == 2 then (if is_leap y then 29 else 28)
  else if m == 4 || m == 6 || m == 9 || m == 11 then 30
  else 31

/-- Number of days before January 1st of year `y`
(`datetime._days_before_year`). -/
def days_before_year (y : Nat) : Nat :=
  (y - 1) * 365 + (y - 1) / 4 - (y - 1) / 100 + (y - 1) / 400

/-- Number of days of year `y` strictly before month `m`
(`datetime._days_before_month`). -/
def days_before_month (y m : Nat) : Nat :=
  (List.range (m - 1)).foldl (fun acc i => acc + days_in_month y (i + 1)) 0

/-- `datetime.date.toordinal`: day count where January 1st of year 1 is
day 1. -/
def date_toordinal (d : CalendarDate) : Nat :=
  days_before_year d.year + days_before_month d.year d.month + d.day

/-- Full weekday names produced by `strftime('%A')` in the C locale,
indexed so that index 0 is Monday (`date.weekday()` numbering). -/
def WEEKDAY_NAMES : List String :=
  ["Monday", "Tuesday", "Wednesday", "Thursday", "Friday", "Saturday", "Sunday"]

/-- Full month names produced by `strftime('%B')` in the C locale. -/
def MONTH_NAMES : List String :=
  ["January", "February", "March", "April", "May", "June", "July",
   "August", "September", "October", "November", "December"]

/-- The weekday name substituted for `%A`: `date.weekday()` is
`(toordinal + 6) % 7` with Monday = 0. -/
def weekday_name (d : CalendarDate) : String :=
  WEEKDAY_NAMES.getD ((date_toordinal d + 6) % 7) ""

/-- The month name substituted for `%B`. -/
def month_name (d : CalendarDate) : String :=
  MONTH_NAMES.getD (d.month - 1) ""

/-- `strftime` restricted to the directives the source's format string uses
(`%A` weekday name, `%B` month name, `%Y` year); any other `%x` pair and all
other characters pass through. -/
def strftime_chars (d : CalendarDate) : List Char → List Char
  | [] => []
  | '%' :: c :: rest =>
    (if c = 'A' then (weekday_name d).toList
     else if c = 'B' then (month_name d).toList
     else if c = 'Y' then (toString d.year).toList
     else ['%', c]) ++ strftime_chars d rest
  | c :: rest => c :: strftime_chars d rest

/-- `date.strftime(fmt)` for the directive subset of `strftime_chars`. -/
def date_strftime (d : CalendarDate) (fmt : String) : String :=
  String.mk (strftime_chars d fmt.toList)

-- "Sunday, January 1st 2014"
-- since the python date format does not support ordinal numbers (1st, 2nd,
-- 3rd, etc.) the source calculates that separately and merges it in with
-- .format()
/-- The source's `DATE_SEARCH_FORMAT` template. -/
def DATE_SEARCH_FORMAT : String := "%A %B {ordinal_day} %Y"

/-- The source's `ORDINAL_SUFFIXES` dict: the 7 exceptional days between
1 and 31; every other day defaults to `"th"` via `.get(day, 'th')`. -/
def ORDINAL_SUFFIXES : List (Nat × String) :=
  [(1, "st"), (2, "nd"), (3, "rd"), (21, "st"), (22, "nd"), (23, "rd"), (31, "st")]

/-- `ORDINAL_SUFFIXES.get(day, 'th')`: the suffix used by
`format_date_for_search` for a given day of month. -/
def ordinal_suffix (day : Nat) : String :=
  (List.lookup day ORDINAL_SUFFIXES).getD "th"

/-- Split a character list at the first occurrence of `c`
(Python `s.split(c, 1)` when it returns two parts; `none` when `c` is
absent). -/
def splitOnce (c : Char) : List Char → Option (List Char × List Char)
  | [] => none
  | x :: xs =>
    if x = c then some ([], xs)
    else (splitOnce c xs).map (fun p => (x :: p.1, p.2))

/-- Split a character list at every occurrence of `c`
(Python `s.split(c)`; the result is never empty). -/
def splitChar (c : Char) : List Char → List (List Char)
  | [] => [[]]
  | x :: xs =>
    if x = c then [] :: splitChar c xs
    else
      match splitChar c xs with
      | [] => [[x]]
      | seg :: segs => (x :: seg) :: segs

/-- `str.format` substitution for a template whose only replacement field is
`{ordinal_day}`: each `{field}` occurrence with `field = "ordinal_day"` is
replaced by the given value. -/
def format_substitute (ordinal_day : String) (template : String) : String :=
  match splitChar '{' template.toList with
  | [] => template
  | seg :: segs =>
    String.mk (seg ++ segs.flatMap (fun s =>
      match splitOnce '}' s with
      | some (field, rest) =>
        if field = "ordinal_day".toList then ordinal_day.toList ++ rest
        else '{' :: s
      | none => '{' :: s))

/-- `format_date_for_search(date)`: the date is formatted
"Sunday January 1st 2014" so that the search engine will see the relevant
parts.  Mirrors the source: build `ordinal_day` from the day number and its
suffix, substitute it into `DATE_SEARCH_FORMAT`, then `strftime`. -/
def format_date_for_search (date : CalendarDate) : String :=
  let ordinal_day := toString date.day ++ (List.lookup date.day ORDINAL_SUFFIXES).getD "th"
  let date_search := format_substitute ordinal_day DATE_SEARCH_FORMAT
  date_strftime date date_search

/-- `format_today_for_search()`: shortcut for formatting today's date for
the search.  The source reads the clock through the globally imported
`datetime.date.today()`; here the clock collaborator's answer is passed
explicitly so it can be substituted, as the tests do by patching. -/
def format_today_for_search (today : CalendarDate) : String :=
  format_date_for_search today

/-! ## The `urlparse` collaborator

The extraction loop calls `urlparse(href).query` and
`parse_qs(query_string).get('q')` from Python 2's `urlparse` module.
The relevant behaviour is modelled here: query extraction (fragment
stripped first, then everything after the first `?`), and query-string
parsing with the default arguments (`keep_blank_values=False`, separators
`&` and `;`, `+` to space, percent-decoding via `unquote`). -/

/-- Is `c` a hexadecimal digit (the characters of `urllib._hexdig`)? -/
def is_hex_digit (c : Char) : Bool :=
  ('0' ≤ c && c ≤ '9') || ('a' ≤ c && c ≤ 'f') || ('A' ≤ c && c ≤ 'F')

/-- Numeric value of a hexadecimal digit. -/
def hex_digit_val (c : Char) : Nat :=
  if '0' ≤ c && c ≤ '9' then c.toNat - '0'.toNat
  else if 'a' ≤ c && c ≤ 'f' then c.toNat - 'a'.toNat + 10
  else c.toNat - 'A'.toNat + 10

/-- `urllib._hextochr` lookup: the character encoded by two hex digits,
`none` when the pair is not a key (mirrors the `KeyError` branch). -/
def hextochr (a b : Char) : Option Char :=
  if is_hex_digit a && is_hex_digit b then
    some (Char.ofNat (16 * hex_digit_val a + hex_digit_val b))
  else none

/-- One item of `urllib.unquote`'s loop over `s.split('%')[1:]`: decode the
leading two characters as a hex pair, or re-emit the `%` verbatim. -/
def unquote_item (item : List Char) : List Char :=
  match item with
  | a :: b :: rest =>
    (match hextochr a b with
     | some c => c :: rest
     | none => '%' :: item)
  | _ => '%' :: item

/-- `urllib.unquote`: percent-decoding by splitting on `%`. -/
def unquote_chars (s : List Char) : List Char :=
  match splitChar '%' s with
  | [] => s
  | [_] => s
  | bit :: bits => bit ++ bits.flatMap unquote_item

/-- `s.replace('+', ' ')` as applied by `parse_qsl` before unquoting. -/
def plus_to_space (s : List Char) : List Char :=
  s.map (fun c => if c = '+' then ' ' else c)

/-- `urlparse.parse_qsl(qs)` with default arguments: split the query string
on `&` and `;`; drop empty fragments; drop a pair with no `=` or with an
empty value (`keep_blank_values=False`); unquote name and value. -/
def parse_qsl (qs : String) : List (String × String) :=
  let pairs := (splitChar '&' qs.toList).flatMap (fun s1 => splitChar ';' s1)
  pairs.filterMap (fun name_value =>
    match name_value with
    | [] => none
    | _ =>
      match splitOnce '=' name_value with
      | none => none
      | some (name, value) =>
        if value.isEmpty then none
        else some (String.mk (unquote_chars (plus_to_space name)),
                   String.mk (unquote_chars (plus_to_space value))))

/-- Append `value` to the entry for `name`, creating the entry when absent:
the dict-building step of `parse_qs`. -/
def parse_qs_insert (d : List (String × List String)) (name value : String) :
    List (String × List String) :=
  match d with
  | [] => [(name, [value])]
  | (k, vs) :: rest =>
    if k = name then (k, vs ++ [value]) :: rest
    else (k, vs) :: parse_qs_insert rest name value

/-- `urlparse.parse_qs(qs)`: group the `parse_qsl` pairs into a dict of
value lists, preserving value order per key. -/
def parse_qs (qs : String) : List (String × List String) :=
  (parse_qsl qs).foldl (fun d nv => parse_qs_insert d nv.1 nv.2) []

/-- `urlparse(url).query`: the fragment (everything from the first `#`) is
split off first, then the query is everything after the first `?` of what
remains, or `""` when there is no `?`.  (Python 2 suppresses the query for
exotic schemes outside `uses_query`; the schemes relevant here —
scheme-less relative links, `http`, `https` — are all in `uses_query`.) -/
def urlparse_query (url : String) : String :=
  let defragged := (splitChar '#' url.toList).headD url.toList
  match splitOnce '?' defragged with
  | some (_, query) => String.mk query
  | none => ""

/-- `s.startswith(pre)`. -/
def startswith (s pre : String) : Bool :=
  pre.toList.isPrefixOf s.toList

/-! ## The extraction loop and workflow -/

/-- The body of the `for link in search_results` loop of
`google_for_today`, for one anchor's `href`: strip off the tracking link by
parsing the query string, look up the `q` parameter, and if it is present
and non-empty (Python truthiness of `urls`) take its first value, yielding
it only when it starts with `http`.  Returns the yielded URL, or `none`
when the anchor is silently skipped. -/
def result_link_url (link_href : String) : Option String :=
  let query_string := urlparse_query link_href
  let urls := List.lookup "q" (parse_qs query_string)
  match urls with
  | some (actual_url :: _) =>
    if startswith actual_url "http" then some actual_url else none
  | _ => none

/-- The extraction loop of `google_for_today` over the anchors matched by
the selector `li.g h3.r a`, represented by their `href` strings: the
sequence of URLs the generator yields, in order. -/
def extract_urls : List String → List String
  | [] => []
  | link :: search_results =>
    match result_link_url link with
    | some actual_url => actual_url :: extract_urls search_results
    | none => extract_urls search_results

/-- The HTTP fetch collaborator's answer, as consumed by
`google_for_today`: the status code, the metadata the error branch prints
(`response.headers`, `response.text`), and the anchors the markup parser
collaborator (`BeautifulSoup(response.content).select('li.g h3.r a')`)
matches in the body, as their `href` strings. -/
structure Response where
  status_code : Nat
  headers : List (String × String)
  text : String
  search_results : List String
deriving DecidableEq, Repr

/-- `google_for_today()` from the fetch onwards: on a non-200 status the
workflow prints the response headers and text and raises
`ValueError("bad google")` — modelled as an `Except.error` carrying that
metadata and message; otherwise it yields the extracted URLs. -/
def google_for_today (response : Response) :
    Except (List (String × String) × String × String) (List String) :=
  if response.status_code ≠ 200 then
    Except.error (response.headers, response.text, "bad google")
  else
    Except.ok (extract_urls response.search_results)

/-! ## Supporting lemmas -/

/-- Whatever the loop body yields passed its `startswith('http')` guard, and
is the first value of the `q` parameter of the anchor's parsed query
string. -/
theorem result_link_url_spec (href u : String) (hu : result_link_url href = some u) :
    startswith u "http" = true ∧
    ∃ rest, List.lookup "q" (parse_qs (urlparse_query href)) = some (u :: rest) := by
  unfold result_link_url at hu
  dsimp only at hu
  split at hu
  · rename_i heq
    split at hu
    · rename_i hhttp
      cases hu
      exact ⟨hhttp, _, heq⟩
    · exact absurd hu (by simp)
  · exact absurd hu (by simp)

/-- The extraction loop is exactly a `filterMap` of its body over the
matched anchors. -/
theorem extract_urls_eq_filterMap (search_results : List String) :
    extract_urls search_results = search_results.filterMap result_link_url := by
  induction search_results with
  | nil => rfl
  | cons link rest ih =>
    rw [List.filterMap_cons]
    cases hr : result_link_url link <;> simp [extract_urls, hr, ih]

/-! ## The claims -/

/-- C1: for every day of month 1–31, the suffix used by
`format_date_for_search` is `"st"` exactly on {1, 21, 31}, `"nd"` exactly
on {2, 22}, `"rd"` exactly on {3, 23}, and exactly the days
{1, 2, 3, 21, 22, 23, 31} receive a suffix other than `"th"`. -/
theorem ordinal_suffix_table_correct (d : Nat) (h1 : 1 ≤ d) (h2 : d ≤ 31) :
    (ordinal_suffix d = "st" ↔ (d = 1 ∨ d = 21 ∨ d = 31)) ∧
    (ordinal_suffix d = "nd" ↔ (d = 2 ∨ d = 22)) ∧
    (ordinal_suffix d = "rd" ↔ (d = 3 ∨ d = 23)) ∧
    (ordinal_suffix d ≠ "th" ↔
      (d = 1 ∨ d = 2 ∨ d = 3 ∨ d = 21 ∨ d = 22 ∨ d = 23 ∨ d = 31)) := by
  interval_cases d <;> refine ⟨?_, ?_, ?_, ?_⟩ <;> decide

/-- Witness for C1 at day 22. -/
theorem ordinal_suffix_table_correct_witness : ordinal_suffix 22 = "nd" :=
  (ordinal_suffix_table_correct 22 (by decide) (by decide)).2.1.mpr (Or.inr rfl)

/-- C2: `format_date_for_search` renders (2014, 1, 1) as
"Wednesday January 1st 2014" and (2014, 1, 17) as
"Friday January 17th 2014". -/
theorem format_date_for_search_examples :
    format_date_for_search ⟨2014, 1, 1⟩ = "Wednesday January 1st 2014" ∧
    format_date_for_search ⟨2014, 1, 17⟩ = "Friday January 17th 2014" := by
  constructor <;> rfl

/-- C3: every URL the extraction loop yields starts with `"http"`; anchors
whose candidate does not are skipped, never yielded. -/
theorem extract_urls_all_http (search_results : List String) (u : String)
    (h : u ∈ extract_urls search_results) : startswith u "http" = true := by
  induction search_results with
  | nil => simp [extract_urls] at h
  | cons link rest ih =>
    rw [extract_urls] at h
    cases hr : result_link_url link with
    | some actual_url =>
      rw [hr] at h
      rcases List.mem_cons.mp h with rfl | hm
      · exact (result_link_url_spec link u hr).1
      · exact ih hm
    | none =>
      rw [hr] at h
      exact ih h

/-- Witness for C3 on a one-anchor document. -/
theorem extract_urls_all_http_witness :
    startswith "http://example.com/x" "http" = true :=
  extract_urls_all_http ["/url?q=http://example.com/x&sa=U"] "http://example.com/x"
    (by decide)

/-- C4: a document with one anchor resolving to "http://example.com/x" and
one resolving to "/relative/path" extracts to exactly
["http://example.com/x"]. -/
theorem extract_urls_filtering_example :
    extract_urls ["/url?q=http://example.com/x&sa=U", "/url?q=/relative/path&sa=U"] =
      ["http://example.com/x"] := by
  decide

/-- C5: a document with zero anchors matched by the structural selector
extracts to the empty sequence, and the workflow returns it without
error. -/
theorem extract_urls_empty_document :
    extract_urls [] = [] ∧
    ∀ r : Response, r.status_code = 200 → r.search_results = [] →
      google_for_today r = Except.ok [] := by
  refine ⟨rfl, fun r h200 hempty => ?_⟩
  simp [google_for_today, h200, hempty, extract_urls]

/-- Witness for C5 on a concrete empty-bodied response. -/
theorem extract_urls_empty_document_witness :
    google_for_today ⟨200, [], "", []⟩ = Except.ok [] :=
  extract_urls_empty_document.2 ⟨200, [], "", []⟩ rfl rfl

/-- C6: an anchor whose parsed query string has no `q` parameter (missing,
empty-valued, or a malformed href) yields nothing and is skipped without
affecting extraction of the remaining anchors. -/
theorem extract_urls_skips_anomalies (link : String) (rest : List String)
    (h : List.lookup "q" (parse_qs (urlparse_query link)) = none ∨
         List.lookup "q" (parse_qs (urlparse_query link)) = some []) :
    result_link_url link = none ∧
    extract_urls (link :: rest) = extract_urls rest := by
  have hnone : result_link_url link = none := by
    unfold result_link_url
    dsimp only
    rcases h with h | h <;> rw [h]
  refine ⟨hnone, ?_⟩
  rw [extract_urls, hnone]

/-- Witness for C6 on an anchor whose `q` parameter is empty. -/
theorem extract_urls_skips_anomalies_witness :
    result_link_url "/url?q=&sa=U" = none ∧
    extract_urls ["/url?q=&sa=U"] = extract_urls [] :=
  extract_urls_skips_anomalies "/url?q=&sa=U" [] (Or.inl (by decide))

/-- C7: on any non-200 status the workflow terminates with the fatal
"bad google" error carrying the response metadata it prints, is never a
success (yields no URLs), and the error does not depend on the body —
extraction is not attempted. -/
theorem google_for_today_fetch_failure (r : Response) (h : r.status_code ≠ 200) :
    google_for_today r = Except.error (r.headers, r.text, "bad google") ∧
    (∀ urls, google_for_today r ≠ Except.ok urls) ∧
    (∀ body, google_for_today { r with search_results := body } =
        Except.error (r.headers, r.text, "bad google")) := by
  refine ⟨?_, ?_, ?_⟩ <;> simp [google_for_today, h]

/-- Witness for C7 on a concrete 500 response. -/
theorem google_for_today_fetch_failure_witness :
    google_for_today ⟨500, [("X", "y")], "oops", ["/url?q=http://a&b=c"]⟩ =
      Except.error ([("X", "y")], "oops", "bad google") :=
  (google_for_today_fetch_failure ⟨500, [("X", "y")], "oops", ["/url?q=http://a&b=c"]⟩
    (by decide)).1

/-- C8: `format_today_for_search` returns exactly
`format_date_for_search` of the value supplied by the clock collaborator,
for every date the clock may return. -/
theorem format_today_refines_format (current_date : Unit → CalendarDate) :
    format_today_for_search (current_date ()) =
      format_date_for_search (current_date ()) := rfl

/-- C9: `format_date_for_search` is deterministic — equal date values give
identical query strings (it is a pure function of the date). -/
theorem format_date_for_search_deterministic (d1 d2 : CalendarDate) (h : d1 = d2) :
    format_date_for_search d1 = format_date_for_search d2 := by
  rw [h]

/-- Witness for C9 at a concrete date. -/
theorem format_date_for_search_deterministic_witness :
    format_date_for_search ⟨2014, 1, 17⟩ = format_date_for_search ⟨2014, 1, 17⟩ :=
  format_date_for_search_deterministic ⟨2014, 1, 17⟩ ⟨2014, 1, 17⟩ rfl

/-- C10: the extraction loop yields at most one URL per matched anchor —
always the first value of that anchor's `q` parameter — and the yielded
URLs keep the anchors' document order (the loop is a `filterMap` of its
per-anchor body over the matched-anchor sequence). -/
theorem extract_urls_one_per_anchor_ordered (search_results : List String) :
    extract_urls search_results = search_results.filterMap result_link_url ∧
    ∀ href u, result_link_url href = some u →
      ∃ rest, List.lookup "q" (parse_qs (urlparse_query href)) = some (u :: rest) := by
  refine ⟨extract_urls_eq_filterMap search_results, fun href u hu => ?_⟩
  exact (result_link_url_spec href u hu).2

/-- Witness for C10 on a one-anchor document. -/
theorem extract_urls_one_per_anchor_ordered_witness :
    extract_urls ["/url?q=http://example.com/x&sa=U"] =
      List.filterMap result_link_url ["/url?q=http://example.com/x&sa=U"] ∧
    ∃ rest,
      List.lookup "q" (parse_qs (urlparse_query "/url?q=http://example.com/x&sa=U")) =
        some ("http://example.com/x" :: rest) :=
  ⟨(extract_urls_one_per_anchor_ordered ["/url?q=http://example.com/x&sa=U"]).1,
   (extract_urls_one_per_anchor_ordered ["/url?q=http://example.com/x&sa=U"]).2
     "/url?q=http://example.com/x&sa=U" "http://example.com/x" (by decide)⟩
